import Mathlib

/-
Formal model of the woojin_tcms train control and monitoring simulation.

The Python sources are embedded shallowly:
- network_bus.py : NetworkMVB_Bus.send_message together with the listen
  delivery path, modelled as the list of wire messages placed into the
  received_messages inbox queue, with the two random loss draws (client
  side and relay side) passed in as explicit boolean parameters;
- mvb_server.py : the registration step of handler, modelled as an
  association list with Python dict assignment semantics;
- simulation.py : process_network_messages dispatch over the node list;
- nodes.py : SensorNode.update, ActuatorNode.receive_message,
  ControlUnitNode.send_command and ControlUnitNode.on_button_click, with
  wall clock readings passed in as explicit rational parameters;
- train.py : the speed-control portion of Train.update (lines 26 to 42),
  with the random wind draw passed in as an explicit rational parameter.

Python floats are modelled as rationals; randomness and clocks are
explicit parameters, so every definition is executable.
-/

namespace TCMS

/-! ## network_bus.py : the transport -/

/-- A wire message as built by NetworkMVB_Bus.send_message: the dict
with keys sender, target, real_target, message. -/
structure WireMsg where
  sender : String
  target : String
  real_target : String
  message : String
deriving DecidableEq

/-- The sender names excluded from the local echo cache in
NetworkMVB_Bus.send_message (the list literal on line 81 of
network_bus.py). -/
def sensorSenders : List String := ["Speed", "Station", "Pass"]

/-- Embeds one execution of NetworkMVB_Bus.send_message plus the
listen/receive delivery path, as the list of messages placed into the
received_messages inbox queue.  send_message hardcodes the wire target
to the string SimulationBus and sets real_target to the given
real_target when present, else to the target argument.  Senders outside
sensorSenders are cached locally (put into the inbox) before the loss
draw.  If the client loss draw passes (lostClient = false), the relay
server drops the message with its own draw (lostServer); if the relay
knows a client registered as SimulationBus it forwards the message
there, and the listen loop of that bus puts it into the same inbox. -/
def sendMessagePuts (sender target message : String) (real_target : Option String)
    (lostClient lostServer serverKnowsSimBus : Bool) : List WireMsg :=
  let effective_target := real_target.getD target
  let data : WireMsg :=
    { sender := sender, target := "SimulationBus",
      real_target := effective_target, message := message }
  let localEcho := if sender ∈ sensorSenders then [] else [data]
  let relayed :=
    if lostClient then []
    else if lostServer then []
    else if serverKnowsSimBus then [data] else []
  localEcho ++ relayed

/-! ## mvb_server.py : endpoint registration -/

/-- A connection handle (the websocket object), abstracted to a number. -/
abbrev Conn := Nat

/-- Embeds the registration step of handler in mvb_server.py:
connected_clients[node_name] = websocket.  Python dict assignment
overwrites any existing binding for the same key; there is no error
path. -/
def registerClient (clients : List (String × Conn)) (name : String)
    (conn : Conn) : List (String × Conn) :=
  (name, conn) :: clients.filter (fun p => !(p.1 == name))

/-- Dict lookup on the connected_clients mapping. -/
def lookupClient (clients : List (String × Conn)) (name : String) : Option Conn :=
  (clients.find? (fun p => p.1 == name)).map (fun p => p.2)

/-! ## simulation.py : dispatch of drained messages -/

/-- A node as seen by process_network_messages: its name and whether it
has a receive_message attribute. -/
structure NodeRec where
  name : String
  hasReceive : Bool
deriving DecidableEq

/-- An inbound message as read by process_network_messages: the
real_target key may be absent, target and message are present. -/
structure InMsg where
  real_target : Option String
  target : String
  message : String
deriving DecidableEq

/-- msg.get with fallback: real_target when present, else target
(simulation.py line 161). -/
def intendedTarget (msg : InMsg) : String :=
  msg.real_target.getD msg.target

/-- Embeds the dispatch loop of process_network_messages for one drained
message: the first node in the list that has receive_message and whose
name equals the intended target receives the message (the loop breaks
after the first match); none if no node matches. -/
def dispatchReceiver (nodes : List NodeRec) (msg : InMsg) : Option NodeRec :=
  nodes.find? (fun n => n.hasReceive && n.name == intendedTarget msg)

/-! ## nodes.py : sensor, actuator, control unit -/

/-- Mutable state of a SensorNode: last_send_time (initially 0) and
last_value (initially None). -/
structure SensorState where
  last_send_time : ℚ
  last_value : Option String
deriving DecidableEq

/-- Embeds SensorNode.update: if the interval has elapsed, sample the
reading; send only when it differs from last_value, recording the new
value; last_send_time is set on every elapsed-interval call.  reading
is the value read_state_func would return; the boolean is whether
send_message_func was called. -/
def SensorNode.update (interval current_time : ℚ) (reading : String)
    (s : SensorState) : SensorState × Bool :=
  if current_time - s.last_send_time > interval then
    if some reading ≠ s.last_value then
      ({ last_send_time := current_time, last_value := some reading }, true)
    else
      ({ last_send_time := current_time, last_value := s.last_value }, false)
  else (s, false)

/-- A run of consecutive SensorNode.update calls at the given times,
all sampling the same unchanged reading; returns the final state and
the total number of sends. -/
def SensorNode.run (interval : ℚ) (reading : String) :
    List ℚ → SensorState → SensorState × Nat
  | [], s => (s, 0)
  | t :: ts, s =>
    let r := SensorNode.update interval t reading s
    let rest := SensorNode.run interval reading ts r.1
    (rest.1, (if r.2 then 1 else 0) + rest.2)

/-- Mutable state of an ActuatorNode: last_message (initially None). -/
structure ActuatorState where
  last_message : Option String
deriving DecidableEq

/-- Embeds ActuatorNode.receive_message: invoke the injected setter and
record the message only when it differs from last_message.  The boolean
is whether set_state_func was called. -/
def ActuatorNode.receive_message (message : String) (s : ActuatorState) :
    ActuatorState × Bool :=
  if some message ≠ s.last_message then
    ({ last_message := some message }, true)
  else (s, false)

/-- A send event: the arguments passed to send_message_func. -/
structure SendEvent where
  sender : String
  target : String
  message : String
deriving DecidableEq

/-- The command key built by ControlUnitNode.send_command:
the f-string target:message. -/
def commandKey (target message : String) : String :=
  target ++ ":" ++ message

/-- Dict lookup on the last_commands mapping. -/
def lookupCmd (lc : List (String × ℚ)) (key : String) : Option ℚ :=
  (lc.find? (fun p => p.1 == key)).map (fun p => p.2)

/-- Dict assignment on the last_commands mapping (overwrites any
existing binding for the key). -/
def insertCmd (lc : List (String × ℚ)) (key : String) (v : ℚ) :
    List (String × ℚ) :=
  (key, v) :: lc.filter (fun p => !(p.1 == key))

/-- Embeds ControlUnitNode.send_command: send unless the same
(target, message) key was sent within the last 1.0 seconds; on a send,
record the current time under the key.  now is the pygame tick clock
reading; the result is (returned boolean, new last_commands, the send
events passed to send_message_func). -/
def ControlUnitNode.send_command (name target message : String) (now : ℚ)
    (lc : List (String × ℚ)) : Bool × List (String × ℚ) × List SendEvent :=
  let key := commandKey target message
  match lookupCmd lc key with
  | none =>
    (true, insertCmd lc key now, [{ sender := name, target := target, message := message }])
  | some t =>
    if now - t > 1 then
      (true, insertCmd lc key now, [{ sender := name, target := target, message := message }])
    else (false, lc, [])

/-! ## train.py : the physical model -/

/-- The fields of Train read or written by the speed-control portion of
Train.update and by ControlUnitNode.on_button_click.  The wall-clock
timestamp fields (station_stop_time, leaving_station_time) and the
rendering fields are omitted: they never feed back into these
operations within one call. -/
structure TrainState where
  speed : ℚ
  target_speed : ℚ
  brakes_applied : Bool
  emergency_stop : Bool
  at_station : Bool
  leaving_station : Bool
deriving DecidableEq

/-- A freshly constructed Train (the projection of Train.__init__ onto
the modelled fields). -/
def Train.init : TrainState :=
  { speed := 0, target_speed := 0, brakes_applied := false,
    emergency_stop := false, at_station := false, leaving_station := false }

/-- Embeds the speed-control chain of Train.update (train.py lines 26
to 42), with the random wind draw uniform(-0.01, 0.01) passed in as w.
The station-detection tail of update (lines 44 to 67) reads the wall
clock and mutates only the at_station bookkeeping; it never writes
speed, so the speed after the full update equals the speed computed
here. -/
def Train.update (s : TrainState) (delta_time w : ℚ) : TrainState :=
  if s.emergency_stop then
    let sp := max 0 (s.speed - 24 * delta_time)
    { s with speed := sp, target_speed := 0,
             emergency_stop := if sp = 0 then false else s.emergency_stop }
  else if s.brakes_applied then
    { s with speed := max 0 (s.speed - 12 * delta_time) }
  else if s.at_station then
    { s with speed := 0, target_speed := 0 }
  else if s.speed < s.target_speed then
    { s with speed := min s.target_speed (s.speed + 6 * delta_time + w * delta_time) }
  else
    { s with speed := max 0 (s.speed - (1 / 100) * delta_time + w * delta_time) }

/-- Mutable state of a ControlUnitNode (the fields touched by
receive_message, send_command and on_button_click). -/
structure CUState where
  name : String
  current_speed : ℚ
  door_states : List Bool
  brakes_applied : Bool
  emergency_stop : Bool
  passengers : Nat
  at_station : Bool
  display_message : String
  last_commands : List (String × ℚ)
  approaching_station : Bool
  emergency_stops_count : Nat
deriving DecidableEq

/-- The per-door send_command loop of the Open Doors and Close Doors
branches of on_button_click: for each index i, send
verb Door-i to DoorActuator-i.  Returns the final last_commands and the
concatenated send events. -/
def ControlUnitNode.doorCommands (name verb : String) (now : ℚ) :
    List Nat → List (String × ℚ) → List (String × ℚ) × List SendEvent
  | [], lc => (lc, [])
  | i :: is, lc =>
    let r := ControlUnitNode.send_command name ("DoorActuator" ++ toString i)
      (verb ++ " Door" ++ toString i) now lc
    let rest := ControlUnitNode.doorCommands name verb now is r.2.1
    (rest.1, r.2.2 ++ rest.2)

/-- Embeds ControlUnitNode.on_button_click (nodes.py).  now is the
pygame tick clock reading used by every send_command inside the call;
NUM_DOORS = 4 and CRUISING_SPEED = 22.22 are inlined as in the source.
Returns the new control unit state, the new train state and the send
events in order. -/
def ControlUnitNode.on_button_click (cu : CUState) (button : String)
    (tr : TrainState) (now : ℚ) : CUState × TrainState × List SendEvent :=
  if button = "Start Moving" then
    if cu.door_states.all (fun st => !st) then
      let r := ControlUnitNode.send_command cu.name "Traction"
        "Set Target Speed:22.22" now cu.last_commands
      if r.1 then
        let cu1 := { cu with last_commands := r.2.1,
                             display_message := "Train starting...",
                             approaching_station := false }
        let tr1 := if tr.at_station then
            { tr with at_station := false, leaving_station := true }
          else tr
        (cu1, tr1, r.2.2)
      else ({ cu with last_commands := r.2.1 }, tr, r.2.2)
    else
      ({ cu with display_message := "Cannot start with doors open" }, tr, [])
  else if button = "Apply Brakes" then
    let r := ControlUnitNode.send_command cu.name "Brake" "Apply Brakes"
      now cu.last_commands
    if r.1 then
      ({ cu with last_commands := r.2.1, brakes_applied := true,
                 display_message := "Brakes applied",
                 approaching_station := true }, tr, r.2.2)
    else ({ cu with last_commands := r.2.1 }, tr, r.2.2)
  else if button = "Release Brakes" then
    let r := ControlUnitNode.send_command cu.name "Brake" "Release Brakes"
      now cu.last_commands
    if r.1 then
      let cu1 := { cu with last_commands := r.2.1, brakes_applied := false,
                           display_message := "Brakes released",
                           approaching_station := false }
      let r2 := ControlUnitNode.send_command cu.name "Traction"
        "Set Target Speed:0" now cu1.last_commands
      if r2.1 then
        let m := if tr.at_station then "Brakes released, train holding at station"
          else if tr.emergency_stop then "Brakes released, train in emergency stop"
          else "Brakes released, train moving"
        ({ cu1 with last_commands := r2.2.1, display_message := m },
          tr, r.2.2 ++ r2.2.2)
      else ({ cu1 with last_commands := r2.2.1 }, tr, r.2.2 ++ r2.2.2)
    else ({ cu with last_commands := r.2.1 }, tr, r.2.2)
  else if button = "Open Doors" then
    if cu.current_speed < 1 then
      let r := ControlUnitNode.doorCommands cu.name "Open" now
        [0, 1, 2, 3] cu.last_commands
      ({ cu with last_commands := r.1, display_message := "Opening doors" },
        tr, r.2)
    else ({ cu with display_message := "Cannot open doors while moving" }, tr, [])
  else if button = "Close Doors" then
    let r := ControlUnitNode.doorCommands cu.name "Close" now
      [0, 1, 2, 3] cu.last_commands
    ({ cu with last_commands := r.1, display_message := "Closing doors" }, tr, r.2)
  else if button = "Emergency Stop" then
    let cnt := cu.emergency_stops_count + 1
    let r := ControlUnitNode.send_command cu.name "Emerg"
      ("Emergency Stop " ++ toString cnt) now cu.last_commands
    if r.1 then
      ({ cu with emergency_stops_count := cnt, last_commands := r.2.1,
                 emergency_stop := true,
                 display_message := "EMERGENCY STOP ACTIVATED" }, tr, r.2.2)
    else ({ cu with emergency_stops_count := cnt, last_commands := r.2.1 },
      tr, r.2.2)
  else (cu, tr, [])

/-! ## Helper lemmas -/

/-- Dict lookup after dict assignment on last_commands yields the
assigned value. -/
lemma lookupCmd_insertCmd (lc : List (String × ℚ)) (key : String) (v : ℚ) :
    lookupCmd (insertCmd lc key v) key = some v := by
  unfold lookupCmd insertCmd
  rw [List.find?_cons_of_pos _ (by simp)]
  rfl

/-- Dict lookup after registration yields the registered connection. -/
lemma lookupClient_registerClient (clients : List (String × Conn))
    (name : String) (conn : Conn) :
    lookupClient (registerClient clients name conn) name = some conn := by
  unfold lookupClient registerClient
  rw [List.find?_cons_of_pos _ (by simp)]
  rfl

/-- One SensorNode.update call either sends and records the reading, or
does not send and leaves last_value unchanged. -/
lemma sensor_update_cases (interval ct : ℚ) (reading : String) (s : SensorState) :
    ((SensorNode.update interval ct reading s).2 = true ∧
      (SensorNode.update interval ct reading s).1.last_value = some reading) ∨
    ((SensorNode.update interval ct reading s).2 = false ∧
      (SensorNode.update interval ct reading s).1.last_value = s.last_value) := by
  unfold SensorNode.update
  split_ifs <;> simp

/-- A SensorNode whose last_value already equals the reading never
sends and keeps last_value. -/
lemma sensor_update_of_value_eq (interval ct : ℚ) (reading : String)
    (s : SensorState) (h : s.last_value = some reading) :
    (SensorNode.update interval ct reading s).2 = false ∧
      (SensorNode.update interval ct reading s).1.last_value = some reading := by
  unfold SensorNode.update
  split_ifs with h1 h2
  · exact absurd h.symm h2
  · exact ⟨rfl, h⟩
  · exact ⟨rfl, h⟩

/-- A run over an unchanged reading starting with last_value equal to
the reading performs no send at all. -/
lemma sensor_run_zero (interval : ℚ) (reading : String) (ts : List ℚ) :
    ∀ s : SensorState, s.last_value = some reading →
      (SensorNode.run interval reading ts s).2 = 0 := by
  induction ts with
  | nil => intro s _; rfl
  | cons t ts ih =>
    intro s h
    have hu := sensor_update_of_value_eq interval t reading s h
    simp only [SensorNode.run]
    rw [hu.1, ih _ hu.2]
    simp

/-- A run over an unchanged reading performs at most one send. -/
lemma sensor_run_le_one (interval : ℚ) (reading : String) (ts : List ℚ) :
    ∀ s : SensorState, (SensorNode.run interval reading ts s).2 ≤ 1 := by
  induction ts with
  | nil => intro s; simp [SensorNode.run]
  | cons t ts ih =>
    intro s
    simp only [SensorNode.run]
    rcases sensor_update_cases interval t reading s with ⟨h2, hv⟩ | ⟨h2, hv⟩
    · rw [h2, sensor_run_zero interval reading ts _ hv]
      simp
    · rw [h2]
      simpa using ih _

/-- send_command when the key was never sent: sends and records. -/
lemma send_command_of_none (name target message : String) (now : ℚ)
    (lc : List (String × ℚ)) (h : lookupCmd lc (commandKey target message) = none) :
    ControlUnitNode.send_command name target message now lc =
      (true, insertCmd lc (commandKey target message) now,
        [{ sender := name, target := target, message := message }]) := by
  simp only [ControlUnitNode.send_command]
  rw [h]

/-- send_command within the cooldown window: suppressed, state kept. -/
lemma send_command_of_recent (name target message : String) (now t0 : ℚ)
    (lc : List (String × ℚ))
    (h : lookupCmd lc (commandKey target message) = some t0)
    (hle : ¬ now - t0 > 1) :
    ControlUnitNode.send_command name target message now lc = (false, lc, []) := by
  simp only [ControlUnitNode.send_command]
  rw [h]
  simp [hle]

/-- send_command after the cooldown window: sends and re-records. -/
lemma send_command_of_stale (name target message : String) (now t0 : ℚ)
    (lc : List (String × ℚ))
    (h : lookupCmd lc (commandKey target message) = some t0)
    (hgt : now - t0 > 1) :
    ControlUnitNode.send_command name target message now lc =
      (true, insertCmd lc (commandKey target message) now,
        [{ sender := name, target := target, message := message }]) := by
  simp only [ControlUnitNode.send_command]
  rw [h]
  simp [hgt]

/-! ## Claim theorems -/

/-- C1 counterexample: a send from the Control node that passes both
loss draws places two equal copies of the wire message into the
received_messages inbox queue (the local echo cached before the loss
draw, plus the relayed copy delivered by listen), refuting delivery at
most once for accepted envelopes. -/
theorem transport_local_echo_duplicate :
    (sendMessagePuts "Control" "Traction" "Apply Brakes" (some "Traction")
        false false true).count
      { sender := "Control", target := "SimulationBus",
        real_target := "Traction", message := "Apply Brakes" } = 2 := by
  decide

/-- C1 amended: one execution of send_message plus the listen path
places at most one copy of any message into the inbox when the sender
is one of the sensor senders Speed, Station or Pass; for any other
sender the local echo can add a second copy, and no execution ever
places more than two copies. -/
theorem transport_delivery_bound (sender target message : String)
    (rt : Option String) (lostClient lostServer sk : Bool) (m : WireMsg) :
    (sendMessagePuts sender target message rt lostClient lostServer sk).count m ≤
      (if sender ∈ sensorSenders then 1 else 2) := by
  refine (List.count_le_length m _).trans ?_
  unfold sendMessagePuts
  split_ifs <;> simp

/-- C2 counterexample: registering connection 1 under id X and then
connection 2 under the same id X leaves connection 2 authoritative —
the second registration is accepted and replaces the first, so there is
no DuplicateRegistration rejection and the first mapping does not
survive. -/
theorem registry_overwrite_counterexample :
    lookupClient (registerClient (registerClient [] "X" 1) "X" 2) "X" = some 2 ∧
      lookupClient (registerClient (registerClient [] "X" 1) "X" 2) "X" ≠ some 1 := by
  decide

/-- C2 amended: the handler has no DuplicateRegistration path; a second
registration under an already-registered id is accepted and overwrites
the first, so the most recent registration is authoritative. -/
theorem registry_last_registration_wins (clients : List (String × Conn))
    (name : String) (c1 c2 : Conn) :
    lookupClient (registerClient (registerClient clients name c1) name c2)
      name = some c2 :=
  lookupClient_registerClient _ name c2

/-- C3: when the drained message carries a real_target, the node that
process_network_messages dispatches to is named by real_target and has
a receive_message attribute, and the outer target field is ignored:
replacing it by any other string dispatches to the same node.  In
particular a node named only by target but not by real_target never
receives the message. -/
theorem dispatch_routes_by_real_target (nodes : List NodeRec) (msg : InMsg)
    (rt t2 : String) (n : NodeRec) (h1 : msg.real_target = some rt)
    (h2 : dispatchReceiver nodes msg = some n) :
    n.name = rt ∧ n.hasReceive = true ∧
      dispatchReceiver nodes { msg with target := t2 } = some n := by
  have hit : intendedTarget msg = rt := by simp [intendedTarget, h1]
  have hp := List.find?_some h2
  rw [hit] at hp
  simp only [Bool.and_eq_true, beq_iff_eq] at hp
  refine ⟨hp.2, hp.1, ?_⟩
  have hsame : intendedTarget { msg with target := t2 } = intendedTarget msg := by
    simp [intendedTarget, h1]
  unfold dispatchReceiver at h2 ⊢
  rw [hsame]
  exact h2

/-- C3 witness: a concrete dispatch where real_target and target
differ. -/
theorem dispatch_routes_by_real_target_witness :
    (NodeRec.mk "Control" true).name = "Control" ∧
      (NodeRec.mk "Control" true).hasReceive = true ∧
      dispatchReceiver [NodeRec.mk "Control" true]
          { real_target := some "Control", target := "Other",
            message := "Speed:10.0" } = some (NodeRec.mk "Control" true) :=
  dispatch_routes_by_real_target [NodeRec.mk "Control" true]
    { real_target := some "Control", target := "SimulationBus",
      message := "Speed:10.0" }
    "Control" "Other" (NodeRec.mk "Control" true) rfl (by decide)

/-- C4 counterexample: a SensorNode with last_send_time 0 and
last_value v, updated at time 2 with interval 1 and an unchanged
reading v, performs no send yet mutates last_send_time to 2 — refuting
that a call sampling an unchanged value leaves both fields unchanged. -/
theorem sensor_unchanged_sample_mutates_time :
    (SensorNode.update 1 2 "v" { last_send_time := 0, last_value := some "v" }).2
        = false ∧
      (SensorNode.update 1 2 "v"
        { last_send_time := 0, last_value := some "v" }).1.last_send_time = 2 := by
  norm_num [SensorNode.update]

/-- C4 amended: each SensorNode.update call performs at most one send,
a run of consecutive calls over an unchanged reading performs at most
one send in total, and last_value is updated only on a call that
publishes; last_send_time, however, is set on every call whose sampling
interval has elapsed, even when the unchanged value suppresses the
send. -/
theorem sensor_update_effects (interval ct : ℚ) (reading : String)
    (s : SensorState) (ts : List ℚ) :
    (SensorNode.update interval ct reading s).1.last_value =
      (if (SensorNode.update interval ct reading s).2 then some reading
        else s.last_value) ∧
    (SensorNode.update interval ct reading s).1.last_send_time =
      (if ct - s.last_send_time > interval then ct else s.last_send_time) ∧
    (SensorNode.run interval reading ts s).2 ≤ 1 := by
  refine ⟨?_, ?_, sensor_run_le_one interval reading ts s⟩
  · rcases sensor_update_cases interval ct reading s with ⟨h2, hv⟩ | ⟨h2, hv⟩ <;>
      rw [h2, hv] <;> simp
  · unfold SensorNode.update
    split_ifs <;> rfl

/-- C5: two ControlUnitNode.send_command calls for the identical
(target, message) pair whose times lie within the 1.0 second cooldown
window perform at most one actual send between them; moreover a call
returns true exactly when it emits a send event, and it records its
timestamp under the command key exactly when it sends. -/
theorem send_command_cooldown (name target message : String)
    (lc : List (String × ℚ)) (t1 t2 : ℚ) (hord : t1 ≤ t2) (h2 : t2 - t1 ≤ 1) :
    (ControlUnitNode.send_command name target message t1 lc).2.2.length +
      (ControlUnitNode.send_command name target message t2
        (ControlUnitNode.send_command name target message t1 lc).2.1).2.2.length
        ≤ 1 ∧
    lookupCmd (ControlUnitNode.send_command name target message t1 lc).2.1
        (commandKey target message) =
      (if (ControlUnitNode.send_command name target message t1 lc).1 then some t1
        else lookupCmd lc (commandKey target message)) ∧
    (ControlUnitNode.send_command name target message t1 lc).2.2.length =
      (if (ControlUnitNode.send_command name target message t1 lc).1
        then 1 else 0) := by
  have hwin : ¬ t2 - t1 > 1 := by linarith [hord]
  rcases hk : lookupCmd lc (commandKey target message) with _ | t0
  · rw [send_command_of_none name target message t1 lc hk]
    rw [send_command_of_recent name target message t2 t1 _
      (lookupCmd_insertCmd lc (commandKey target message) t1) hwin]
    simp [lookupCmd_insertCmd]
  · by_cases hc : t1 - t0 > 1
    · rw [send_command_of_stale name target message t1 t0 lc hk hc]
      rw [send_command_of_recent name target message t2 t1 _
        (lookupCmd_insertCmd lc (commandKey target message) t1) hwin]
      simp [lookupCmd_insertCmd]
    · rw [send_command_of_recent name target message t1 t0 lc hk hc]
      by_cases hc2 : t2 - t0 > 1
      · rw [send_command_of_stale name target message t2 t0 lc hk hc2]
        simp [hk]
      · rw [send_command_of_recent name target message t2 t0 lc hk hc2]
        simp [hk]

/-- C5 witness: a concrete pair of calls half a second apart with the
same target and message sends exactly once. -/
theorem send_command_cooldown_witness :
    (ControlUnitNode.send_command "Control" "Brake" "Apply Brakes" 0 []).2.2.length +
      (ControlUnitNode.send_command "Control" "Brake" "Apply Brakes" (1/2)
        (ControlUnitNode.send_command "Control" "Brake" "Apply Brakes"
          0 []).2.1).2.2.length ≤ 1 ∧
    lookupCmd (ControlUnitNode.send_command "Control" "Brake" "Apply Brakes"
        0 []).2.1 (commandKey "Brake" "Apply Brakes") =
      (if (ControlUnitNode.send_command "Control" "Brake" "Apply Brakes" 0 []).1
        then some 0 else lookupCmd [] (commandKey "Brake" "Apply Brakes")) ∧
    (ControlUnitNode.send_command "Control" "Brake" "Apply Brakes" 0 []).2.2.length =
      (if (ControlUnitNode.send_command "Control" "Brake" "Apply Brakes" 0 []).1
        then 1 else 0) :=
  send_command_cooldown "Control" "Brake" "Apply Brakes" [] 0 (1/2)
    (by norm_num) (by norm_num)

/-- C6 counterexample: an ActuatorNode whose last_message already
equals the payload receives that payload twice and the setter is never
invoked — refuting that two deliveries of the same payload invoke the
setter exactly once. -/
theorem actuator_already_latched :
    (ActuatorNode.receive_message "p" { last_message := some "p" }).2 = false ∧
      (ActuatorNode.receive_message "p"
        (ActuatorNode.receive_message "p"
          { last_message := some "p" }).1).2 = false := by
  decide

/-- C6 amended: delivering the same payload twice in a row invokes the
setter at most once — exactly once when the payload differs from the
recorded last message, never otherwise; after the first delivery the
payload is recorded as last-received, and the second delivery is a
no-op on state and setter alike. -/
theorem actuator_idempotent (s : ActuatorState) (p : String) :
    (ActuatorNode.receive_message p s).1.last_message = some p ∧
    ActuatorNode.receive_message p (ActuatorNode.receive_message p s).1 =
      ((ActuatorNode.receive_message p s).1, false) ∧
    (ActuatorNode.receive_message p s).2 =
      (if s.last_message = some p then false else true) := by
  unfold ActuatorNode.receive_message
  split_ifs with h <;> simp_all

/-- C7: a fresh Train with speed 0 and target_speed 22.22, updated with
delta_time 1 under any admissible wind draw, accelerates to a speed
within the wind epsilon of 6.0. -/
theorem train_accel_one_tick (w : ℚ) (hw1 : -(1/100) ≤ w) (hw2 : w ≤ 1/100) :
    6 - 1/100 ≤
      (Train.update { Train.init with speed := 0, target_speed := 22.22 } 1 w).speed ∧
    (Train.update { Train.init with speed := 0, target_speed := 22.22 } 1 w).speed ≤
      6 + 1/100 := by
  have hne : (22.22 : ℚ) = 1111/50 := by norm_num
  unfold Train.update Train.init
  norm_num [hne]
  constructor <;> linarith

/-- C7 witness: the tick evaluated at wind draw 0. -/
theorem train_accel_one_tick_witness :
    6 - 1/100 ≤
      (Train.update { Train.init with speed := 0, target_speed := 22.22 } 1 0).speed ∧
    (Train.update { Train.init with speed := 0, target_speed := 22.22 } 1 0).speed ≤
      6 + 1/100 :=
  train_accel_one_tick 0 (by norm_num) (by norm_num)

/-- C9: with emergency_stop set, Train.update applies the emergency
deceleration 24 m per squared second, forces target_speed to 0, and
clears the emergency_stop flag exactly on the call in which the speed
reaches 0, with no external release. -/
theorem train_emergency_self_reset (s : TrainState) (dt w : ℚ)
    (h : s.emergency_stop = true) :
    (Train.update s dt w).speed = max 0 (s.speed - 24 * dt) ∧
    (Train.update s dt w).target_speed = 0 ∧
    (Train.update s dt w).emergency_stop =
      (if (Train.update s dt w).speed = 0 then false else true) := by
  simp [Train.update, h]

/-- A train running at speed 10 with an active emergency stop, used as
concrete input for the emergency scenario. -/
def trEmergency : TrainState :=
  { Train.init with speed := 10, target_speed := 5, emergency_stop := true }

/-- C9 witness: a concrete emergency tick from speed 10 over a quarter
second. -/
theorem train_emergency_self_reset_witness :
    (Train.update trEmergency (1/4) 0).speed =
      max 0 (trEmergency.speed - 24 * (1/4)) ∧
    (Train.update trEmergency (1/4) 0).target_speed = 0 ∧
    (Train.update trEmergency (1/4) 0).emergency_stop =
      (if (Train.update trEmergency (1/4) 0).speed = 0 then false else true) :=
  train_emergency_self_reset trEmergency (1/4) 0 rfl

/-- C10: from any state with nonnegative speed and target speed, any
nonnegative delta_time and any wind draw in the admissible interval,
the speed after Train.update is nonnegative in every branch. -/
theorem train_speed_nonneg (s : TrainState) (dt w : ℚ) (h0 : 0 ≤ s.speed)
    (h1 : 0 ≤ s.target_speed) (h2 : 0 ≤ dt) (h3 : -(1/100) ≤ w)
    (h4 : w ≤ 1/100) :
    0 ≤ (Train.update s dt w).speed := by
  have hwd : 0 ≤ 6 * dt + w * dt := by nlinarith
  unfold Train.update
  split_ifs <;> dsimp only
  · exact le_max_left 0 _
  · exact le_max_left 0 _
  · exact le_refl 0
  · exact le_min h1 (by linarith)
  · exact le_max_left 0 _

/-- C10 witness: the bound evaluated on a coasting tick. -/
theorem train_speed_nonneg_witness :
    0 ≤ (Train.update Train.init 1 0).speed :=
  train_speed_nonneg Train.init 1 0 (le_refl 0) (le_refl 0) (by norm_num)
    (by norm_num) (by norm_num)

/-- C8: clicking Start Moving while at least one door is recorded open
sends no command, records no cooldown timestamp, leaves the train state
(in particular its target speed) unchanged, and sets display_message to
the doors-open refusal text. -/
theorem start_moving_blocked_by_open_door (cu : CUState) (tr : TrainState)
    (now : ℚ) (h : ∃ b ∈ cu.door_states, b = true) :
    ControlUnitNode.on_button_click cu "Start Moving" tr now =
      ({ cu with display_message := "Cannot start with doors open" }, tr, []) := by
  have hall : cu.door_states.all (fun st => !st) = false := by
    rcases h with ⟨b, hb, hbt⟩
    subst hbt
    by_contra hc
    rw [Bool.not_eq_false] at hc
    have := List.all_eq_true.mp hc _ hb
    simp at this
  simp [ControlUnitNode.on_button_click, hall]

/-- A control unit with its first door recorded open, used as concrete
input for the doors-open scenario. -/
def cuDoorsOpen : CUState :=
  { name := "Control", current_speed := 0,
    door_states := [true, false, false, false], brakes_applied := false,
    emergency_stop := false, passengers := 0, at_station := false,
    display_message := "", last_commands := [], approaching_station := false,
    emergency_stops_count := 0 }

/-- C8 witness: the doors-open refusal evaluated on a concrete control
unit and a fresh train. -/
theorem start_moving_blocked_by_open_door_witness :
    ControlUnitNode.on_button_click cuDoorsOpen "Start Moving" Train.init 0 =
      ({ cuDoorsOpen with display_message := "Cannot start with doors open" },
        Train.init, []) :=
  start_moving_blocked_by_open_door cuDoorsOpen Train.init 0
    ⟨true, by simp [cuDoorsOpen], rfl⟩

end TCMS
